import Mathlib

/-!
Shallow embedding of `ruta4A.py` (class `BusSimulator`), a matplotlib bus
simulation over four fixed map points and four two-stop routes.

Modelling choices:
* Python dicts with string keys become association lists (`List (String × _)`),
  preserving insertion order (needed for the route-cycling key handler);
  a dict lookup that can raise `KeyError` becomes an `Option`-returning lookup.
* Python floats in the simulation state become exact rationals `ℚ`;
  the metric formulas involve a square root, so they live in `ℝ`.
* The mutable attributes of the `BusSimulator` object that the key handler and
  the animation tick read or write become the record `SimState`; methods become
  state-passing functions.  List indexing that can raise `IndexError` becomes
  `List.get?`, so a method that can crash returns `Option SimState`.
* The icon download (`load_custom_bus_image`) performs network and image-library
  IO; its `try`-body is abstracted as an `Except` argument.
-/

namespace Ruta4A

/-- Coordinates of a map point: the `(x, y)` pairs of `self.points`. -/
abbrev Coord := ℚ × ℚ

/-- Lookup in an association list, modelling a Python dict access
`d[k]` that yields `None` exactly when the key is absent (KeyError). -/
def dictGet {α : Type} (d : List (String × α)) (k : String) : Option α :=
  (d.find? (fun e => e.1 == k)).map (fun e => e.2)

/-- The table `self.points` built in `BusSimulator.__init__` (lines 18-23). -/
def points : List (String × Coord) :=
  [("Terminal", (2, 2)),
   ("Hospital", (8, 5)),
   ("El Recreo", (5, 8)),
   ("Barrio Industrial", (10, 2))]

/-- The table `self.routes` built in `BusSimulator.__init__` (lines 26-31). -/
def routes : List (String × List String) :=
  [("R1", ["Terminal", "Hospital"]),
   ("R2", ["Hospital", "El Recreo"]),
   ("R3", ["Terminal", "El Recreo"]),
   ("R4", ["Terminal", "Barrio Industrial"])]

/-- The per-route parameter record of `self.route_params`; the key
`impacto_R1` is present only in the R4 entry, hence an `Option`. -/
structure RouteParams where
  color : String
  velocidad_promedio : ℚ
  frecuencia : ℚ
  congestion : ℚ
  demanda : ℚ
  buses_requeridos : ℚ
  impacto_R1 : Option ℚ
deriving DecidableEq

/-- The table `self.route_params` built in `BusSimulator.__init__` (lines 34-68). -/
def route_params : List (String × RouteParams) :=
  [("R1", ⟨"blue", 30, 15, 0.7, 180, 180, none⟩),
   ("R2", ⟨"green", 25, 20, 0.6, 150, 150, none⟩),
   ("R3", ⟨"red", 35, 25, 0.4, 120, 120, none⟩),
   ("R4", ⟨"purple", 40, 15, 0.5, 100, 2, some (-0.12)⟩)]

/-- The mutable simulator state read and written by the key handler and the
animation tick: the tables (instance attributes, so in principle mutable),
the active route `self.current_route`, and `self.bus_pos`
(`segment` / `progress`). -/
structure SimState where
  points : List (String × Coord)
  routes : List (String × List String)
  route_params : List (String × RouteParams)
  current_route : String
  segment : ℕ
  progress : ℚ
deriving DecidableEq

/-- State after `__init__` (lines 18-82): the three tables, current route R1,
and `bus_pos = {segment: 0, progress: 0}`. -/
def initState : SimState :=
  { points := points
    routes := routes
    route_params := route_params
    current_route := "R1"
    segment := 0
    progress := 0 }

/-- `BusSimulator.on_key_press` (lines 203-213): on the space key, cycle
`current_route` to the next key of `self.routes` in insertion order and reset
`bus_pos`; on any other key, do nothing. -/
def on_key_press (key : String) (s : SimState) : SimState :=
  if key = " " then
    let routeNames := s.routes.map (fun e => e.1)
    let current_idx := routeNames.indexOf s.current_route
    let next_idx := (current_idx + 1) % routeNames.length
    { s with
        current_route := routeNames.getD next_idx s.current_route
        segment := 0
        progress := 0 }
  else s

/-- The list `points = [self.points[p] for p in self.routes[self.current_route]]`
computed at the top of `update_bus_position` (line 287). -/
def route_points (s : SimState) : Option (List Coord) := do
  let names ← dictGet s.routes s.current_route
  names.mapM (fun p => dictGet s.points p)

/-- Line 303: `end = points[segment + 1] if segment + 1 < len(points) else points[0]`. -/
def segment_end (pts : List Coord) (segment : ℕ) : Option Coord :=
  if segment + 1 < pts.length then pts.get? (segment + 1) else pts.get? 0

/-- `BusSimulator.update_bus_position` (lines 285-306), restricted to its effect
on the simulator state: advance `progress` by the per-tick speed, wrap
`segment` and `progress` on overflow, and perform the two list indexings of the
interpolation step (whose failure would be a Python `IndexError`, hence
`Option`).  The extent placed on the icon is pure output and is modelled
separately by `bus_extent`. -/
def update_bus_position (s : SimState) : Option SimState := do
  let pts ← route_points s
  let params ← dictGet s.route_params s.current_route
  let speed := 0.01 * (params.velocidad_promedio / 30) * (1 - params.congestion * 0.5)
  let progress1 := s.progress + speed
  let step :=
    if progress1 ≥ 1 then
      let seg1 := s.segment + 1
      if seg1 ≥ pts.length - 1 then ((0 : ℕ), (0 : ℚ)) else (seg1, 0)
    else (s.segment, progress1)
  let _pstart ← pts.get? step.1
  let _pend ← segment_end pts step.1
  pure { s with segment := step.1, progress := step.2 }

/-- The four orientation cases of the icon (lines 313-321). -/
inductive Orientation
  | right
  | up
  | left
  | down
deriving DecidableEq

/-- The orientation branch selected from the travel angle (lines 314-321):
the condition chain `-45 <= angle <= 45` / `45 < angle <= 135` /
`angle > 135 or angle < -135` / else. -/
def bus_orientation (angle : ℚ) : Orientation :=
  if -45 ≤ angle ∧ angle ≤ 45 then .right
  else if 45 < angle ∧ angle ≤ 135 then .up
  else if 135 < angle ∨ angle < -135 then .left
  else .down

/-- The extent rectangle `(x0, x1, y0, y1)` placed around the interpolated
position `(x, y)` in each of the four orientation branches (lines 314-323). -/
def bus_extent (angle x y bus_width bus_height : ℚ) : ℚ × ℚ × ℚ × ℚ :=
  match bus_orientation angle with
  | .right => (x - bus_width / 2, x + bus_width / 2, y, y + bus_height)
  | .up => (x - bus_height / 2, x + bus_height / 2, y, y + bus_width)
  | .left => (x - bus_width / 2, x + bus_width / 2, y - bus_height, y)
  | .down => (x - bus_height / 2, x + bus_height / 2, y - bus_width, y)

/-- Line 220 of `calculate_route_metrics`: the euclidean distance between the
two endpoint coordinates of the route
(`points[1]` and `points[0]` of the comprehension on line 218). -/
noncomputable def route_distance (s : SimState) (route : String) : Option ℝ := do
  let names ← dictGet s.routes route
  let pts ← names.mapM (fun p => dictGet s.points p)
  let p0 ← pts.get? 0
  let p1 ← pts.get? 1
  pure (Real.sqrt (((p1.1 : ℝ) - (p0.1 : ℝ)) ^ 2 + ((p1.2 : ℝ) - (p0.2 : ℝ)) ^ 2))

/-- Lines 223-225 of `calculate_route_metrics`: `demanda_ajustada` is the base
demand, multiplied by `(1 + impacto_R1)` of the R4 parameters when the route is
R1 and the key R4 is present in `self.routes`. -/
def demanda_ajustada (s : SimState) (route : String) : Option ℚ := do
  let params ← dictGet s.route_params route
  if route = "R1" ∧ (dictGet s.routes "R4").isSome then
    let r4 ← dictGet s.route_params "R4"
    let imp ← r4.impacto_R1
    pure (params.demanda * (1 + imp))
  else
    pure params.demanda

/-- Line 227 of `calculate_route_metrics`:
`tiempo = (distance / params[velocidad_promedio]) * 60 * (1 + params[congestion])`. -/
noncomputable def route_tiempo (s : SimState) (route : String) : Option ℝ := do
  let params ← dictGet s.route_params route
  let distance ← route_distance s route
  pure ((distance / (params.velocidad_promedio : ℝ)) * 60 * (1 + (params.congestion : ℝ)))

/-- Line 229 of `calculate_route_metrics`:
`score = (demanda_ajustada * 0.5) / (tiempo * 0.3 + params[frecuencia] * 0.2)`. -/
noncomputable def route_score (s : SimState) (route : String) : Option ℝ := do
  let params ← dictGet s.route_params route
  let da ← demanda_ajustada s route
  let tiempo ← route_tiempo s route
  pure (((da : ℝ) * 0.5) / (tiempo * 0.3 + (params.frecuencia : ℝ) * 0.2))

/-- The dict returned by `calculate_route_metrics` (lines 231-240). -/
structure RouteMetrics where
  Ruta : String
  Distancia : ℝ
  Tiempo : ℝ
  Congestion : ℚ
  Frecuencia : ℚ
  Demanda : ℚ
  Puntaje : ℝ
  Buses : ℚ

/-- Idealisation of the float `round(x, 2)` applied to the displayed fields. -/
noncomputable def roundTo2 (x : ℝ) : ℝ := ((round (x * 100) : ℤ) : ℝ) / 100

/-- `BusSimulator.calculate_route_metrics` (lines 215-240), assembling the
returned dict from the intermediate quantities above; `Distancia`, `Tiempo` and
`Puntaje` are rounded to two decimals for display, `Demanda` is returned
unrounded. -/
noncomputable def calculate_route_metrics (s : SimState) (route : String) :
    Option RouteMetrics := do
  let params ← dictGet s.route_params route
  let distance ← route_distance s route
  let da ← demanda_ajustada s route
  let tiempo ← route_tiempo s route
  let score ← route_score s route
  pure { Ruta := route
         Distancia := roundTo2 distance
         Tiempo := roundTo2 tiempo
         Congestion := params.congestion
         Frecuencia := params.frecuencia
         Demanda := da
         Puntaje := roundTo2 score
         Buses := params.buses_requeridos }

/-- The icon state produced by image loading: the pixel dimensions of the
stored bitmap `self.bus_img` and the plot-relative sizes
`self.bus_width` / `self.bus_height`. -/
structure BusIcon where
  img_rows : ℕ
  img_cols : ℕ
  bus_width : ℚ
  bus_height : ℚ
deriving DecidableEq

/-- `BusSimulator.create_fallback_bus_icon` (lines 139-162): a synthesized
50 x 100 RGBA bitmap with `bus_width = 1.0` and `bus_height = 0.5`. -/
def create_fallback_bus_icon : BusIcon :=
  { img_rows := 50, img_cols := 100, bus_width := 1, bus_height := 1 / 2 }

/-- `BusSimulator.load_custom_bus_image` (lines 98-137).  The `try`-body
(network download, PIL decode, resize, numpy transparency processing) is IO
over floats and images, abstracted here as an `Except` argument carrying either
the icon it would build or the exception message.  The result pairs the printed
error line (`none` when nothing is printed) with the icon installed on the
simulator. -/
def load_custom_bus_image (attempt : Except String BusIcon) :
    Option String × BusIcon :=
  match attempt with
  | .ok icon => (none, icon)
  | .error e => (some ("Error cargando imagen personalizada: " ++ e),
                 create_fallback_bus_icon)

/-- State after one animation tick from the initial state: the bus has advanced
by the R1 step 0.01 * (30 / 30) * (1 - 0.7 * 0.5) = 13/2000. -/
def initTicked : SimState :=
  { initState with progress := 13 / 2000 }

/-- The successor of each route name in insertion order, as the route-cycling
claim states it: R1 to R2 to R3 to R4 and back to R1. -/
def next_route_spec (r : String) : String :=
  if r = "R1" then "R2"
  else if r = "R2" then "R3"
  else if r = "R3" then "R4"
  else "R1"

/-- The simulator invariant: the three tables are still the startup tables,
the active route is one of the four route names, and `bus_pos` holds segment 0
(all routes have two stops) and a progress fraction in [0, 1). -/
def SimInv (s : SimState) : Prop :=
  s.points = points ∧ s.routes = routes ∧ s.route_params = route_params ∧
  s.current_route ∈ (["R1", "R2", "R3", "R4"] : List String) ∧
  s.segment = 0 ∧ 0 ≤ s.progress ∧ s.progress < 1

/-- The states the simulator can reach: the state after `__init__`, closed
under key presses and successful animation ticks. -/
inductive Reachable : SimState → Prop
  | init : Reachable initState
  | key (k : String) {s : SimState} : Reachable s → Reachable (on_key_press k s)
  | tick {s s' : SimState} : Reachable s →
      update_bus_position s = some s' → Reachable s'

/-! Helper lemmas shared by the claim theorems. -/

lemma get?_isSome_of_lt {α : Type} (l : List α) (n : ℕ) (h : n < l.length) :
    (l.get? n).isSome := by
  simp [List.get?_eq_getElem?, List.getElem?_eq_getElem h]

/-- Unfolding a successful animation tick: it only rewrites `segment` and
`progress`, to the pair produced by the advance-and-wrap computation. -/
lemma update_some_shape (s s' : SimState) (h : update_bus_position s = some s') :
    ∃ pts params,
      route_points s = some pts ∧
      dictGet s.route_params s.current_route = some params ∧
      s' = { s with
        segment :=
          (if s.progress + 0.01 * (params.velocidad_promedio / 30) *
              (1 - params.congestion * 0.5) ≥ 1 then
            if s.segment + 1 ≥ pts.length - 1 then ((0 : ℕ), (0 : ℚ))
            else (s.segment + 1, 0)
          else (s.segment, s.progress + 0.01 * (params.velocidad_promedio / 30) *
              (1 - params.congestion * 0.5))).1
        progress :=
          (if s.progress + 0.01 * (params.velocidad_promedio / 30) *
              (1 - params.congestion * 0.5) ≥ 1 then
            if s.segment + 1 ≥ pts.length - 1 then ((0 : ℕ), (0 : ℚ))
            else (s.segment + 1, 0)
          else (s.segment, s.progress + 0.01 * (params.velocidad_promedio / 30) *
              (1 - params.congestion * 0.5))).2 } := by
  unfold update_bus_position at h
  simp only [Option.bind_eq_bind, Option.bind_eq_some, Option.pure_def,
    Option.some.injEq] at h
  obtain ⟨pts, hpts, params, hparams, c, hc, d, hd, hfin⟩ := h
  exact ⟨pts, params, hpts, hparams, hfin.symm⟩

/-! Claim theorems. -/

/-- C6: the icon loader prints an error line and substitutes the synthesized
placeholder exactly when the download or parsing fails, and the placeholder
still provides a bitmap (50 x 100) together with bus_width 1.0 and
bus_height 0.5; on success nothing is printed and the downloaded icon is kept. -/
theorem load_image_error_handling :
    (∀ e, load_custom_bus_image (.error e) =
        (some ("Error cargando imagen personalizada: " ++ e), create_fallback_bus_icon)) ∧
    (∀ icon, load_custom_bus_image (.ok icon) = (none, icon)) ∧
    create_fallback_bus_icon.img_rows = 50 ∧
    create_fallback_bus_icon.img_cols = 100 ∧
    create_fallback_bus_icon.bus_width = 1 ∧
    create_fallback_bus_icon.bus_height = 1 / 2 :=
  ⟨fun _ => rfl, fun _ => rfl, rfl, rfl, rfl, rfl⟩

/-- C7: the orientation of the icon is selected from exactly four 90-degree
bands of the travel-direction angle: right on [-45, 45], up on (45, 135],
left on (135, infinity) or (-infinity, -135), and the residual else-branch
(down) is exactly the band [-135, -45); the four bands partition the angles. -/
theorem orientation_bands_partition (a : ℚ) :
    (bus_orientation a = .right ↔ -45 ≤ a ∧ a ≤ 45) ∧
    (bus_orientation a = .up ↔ 45 < a ∧ a ≤ 135) ∧
    (bus_orientation a = .left ↔ 135 < a ∨ a < -135) ∧
    (bus_orientation a = .down ↔ -135 ≤ a ∧ a < -45) := by
  unfold bus_orientation
  split_ifs with h1 h2 h3
  · refine ⟨iff_of_true rfl h1, iff_of_false (by decide) ?_,
      iff_of_false (by decide) ?_, iff_of_false (by decide) ?_⟩
    · rintro ⟨hx, _⟩; linarith [h1.2]
    · rintro (hx | hx) <;> linarith [h1.1, h1.2]
    · rintro ⟨_, hx⟩; linarith [h1.1]
  · refine ⟨iff_of_false (by decide) ?_, iff_of_true rfl h2,
      iff_of_false (by decide) ?_, iff_of_false (by decide) ?_⟩
    · rintro ⟨_, hx⟩; linarith [h2.1]
    · rintro (hx | hx) <;> linarith [h2.1, h2.2]
    · rintro ⟨_, hx⟩; linarith [h2.1]
  · refine ⟨iff_of_false (by decide) ?_, iff_of_false (by decide) ?_,
      iff_of_true rfl h3, iff_of_false (by decide) ?_⟩
    · rintro ⟨hx, hy⟩
      rcases h3 with h3 | h3 <;> linarith
    · rintro ⟨hx, hy⟩
      rcases h3 with h3 | h3 <;> linarith
    · rintro ⟨hx, hy⟩
      rcases h3 with h3 | h3 <;> linarith
  · push_neg at h1 h2 h3
    have ha : a < -45 := by
      by_contra hcon
      push_neg at hcon
      have h45 : 45 < a := h1 hcon
      have := h2 h45
      linarith [h3.1]
    refine ⟨iff_of_false (by decide) ?_, iff_of_false (by decide) ?_,
      iff_of_false (by decide) ?_, iff_of_true rfl ⟨h3.2, ha⟩⟩
    · rintro ⟨hx, _⟩; linarith
    · rintro ⟨hx, _⟩; linarith
    · rintro (hx | hx) <;> linarith [h3.1, h3.2]

/-- C8: each of the four startup routes is an ordered pair of exactly two point
names, each a key of the points table; and neither the points table nor the
routes table is modified by the key handler or by the animation tick. -/
theorem tables_static_and_preserved (k : String) (s s' : SimState)
    (h : update_bus_position s = some s') :
    (∀ e ∈ routes, e.2.length = 2 ∧ ∀ p ∈ e.2, (dictGet points p).isSome) ∧
    (on_key_press k s).points = s.points ∧
    (on_key_press k s).routes = s.routes ∧
    s'.points = s.points ∧ s'.routes = s.routes := by
  obtain ⟨pts, params, -, -, hs'⟩ := update_some_shape s s' h
  refine ⟨by decide, ?_, ?_, ?_, ?_⟩
  · unfold on_key_press; split_ifs <;> rfl
  · unfold on_key_press; split_ifs <;> rfl
  · rw [hs']
  · rw [hs']

/-- The two endpoint coordinates of the initial route R1. -/
lemma route_points_init : route_points initState = some [(2, 2), (8, 5)] := rfl

/-- The R1 parameter record looked up from the initial state. -/
lemma params_init :
    dictGet initState.route_params initState.current_route =
      some ⟨"blue", 30, 15, 0.7, 180, 180, none⟩ := rfl

/-- Evaluating one animation tick from the initial state. -/
lemma update_init : update_bus_position initState = some initTicked := by
  unfold update_bus_position
  rw [route_points_init, params_init]
  simp only [Option.bind_eq_bind, Option.some_bind]
  norm_num [initState, initTicked, segment_end]

/-- Witness for C8 at the key "x" and the initial state, whose tick succeeds. -/
theorem tables_static_and_preserved_witness :
    update_bus_position initState = some initTicked ∧
    ((∀ e ∈ routes, e.2.length = 2 ∧ ∀ p ∈ e.2, (dictGet points p).isSome) ∧
      (on_key_press "x" initState).points = initState.points ∧
      (on_key_press "x" initState).routes = initState.routes ∧
      initTicked.points = initState.points ∧ initTicked.routes = initState.routes) :=
  ⟨update_init, tables_static_and_preserved "x" initState initTicked update_init⟩

/-- C3: a successful animation tick adds exactly
0.01 * (velocidad_promedio / 30) * (1 - congestion * 0.5) of the active route
to the progress fraction; when the sum reaches 1 the progress is instead reset
to 0 by the wraparound. -/
theorem tick_progress_step (s s' : SimState) (p : RouteParams)
    (hp : dictGet s.route_params s.current_route = some p)
    (h : update_bus_position s = some s') :
    (s.progress + 0.01 * (p.velocidad_promedio / 30) * (1 - p.congestion * 0.5) < 1 →
      s'.progress = s.progress + 0.01 * (p.velocidad_promedio / 30) * (1 - p.congestion * 0.5)) ∧
    (s.progress + 0.01 * (p.velocidad_promedio / 30) * (1 - p.congestion * 0.5) ≥ 1 →
      s'.progress = 0) := by
  obtain ⟨pts, params, -, hparams, hs'⟩ := update_some_shape s s' h
  rw [hp] at hparams
  obtain rfl := Option.some.inj hparams
  constructor
  · intro hlt
    rw [hs']
    simp only [if_neg (not_le.2 hlt)]
  · intro hge
    rw [hs']
    simp only [if_pos hge]
    split_ifs <;> rfl

/-- Witness for C3 at the initial state: the R1 parameters give the step
13/2000, which does not reach 1, so the progress advances to 13/2000. -/
theorem tick_progress_step_witness :
    dictGet initState.route_params initState.current_route =
      some ⟨"blue", 30, 15, 0.7, 180, 180, none⟩ ∧
    update_bus_position initState = some initTicked ∧
    ((initState.progress + 0.01 * ((30 : ℚ) / 30) * (1 - 0.7 * 0.5) < 1 →
      initTicked.progress = initState.progress + 0.01 * ((30 : ℚ) / 30) * (1 - 0.7 * 0.5)) ∧
    (initState.progress + 0.01 * ((30 : ℚ) / 30) * (1 - 0.7 * 0.5) ≥ 1 →
      initTicked.progress = 0)) :=
  ⟨params_init, update_init,
    tick_progress_step initState initTicked ⟨"blue", 30, 15, 0.7, 180, 180, none⟩
      params_init update_init⟩

/-- C2: for a route whose entry lists the two point names `n0`, `n1` with
coordinates `a`, `b`, the travel time computed by `calculate_route_metrics` is
(euclidean distance between `a` and `b` / velocidad_promedio) * 60 *
(1 + congestion). -/
theorem tiempo_formula (s : SimState) (r n0 n1 : String) (a b : Coord)
    (p : RouteParams)
    (hroute : dictGet s.routes r = some [n0, n1])
    (ha : dictGet s.points n0 = some a)
    (hb : dictGet s.points n1 = some b)
    (hp : dictGet s.route_params r = some p) :
    route_tiempo s r =
      some ((Real.sqrt (((b.1 : ℝ) - (a.1 : ℝ)) ^ 2 + ((b.2 : ℝ) - (a.2 : ℝ)) ^ 2) /
          (p.velocidad_promedio : ℝ)) * 60 * (1 + (p.congestion : ℝ))) := by
  unfold route_tiempo route_distance
  rw [hroute, hp]
  simp only [Option.bind_eq_bind, Option.some_bind, List.mapM_cons, List.mapM_nil,
    ha, hb, Option.pure_def]
  rfl

/-- Witness for C2 at the initial state and route R4
(Terminal (2,2) to Barrio Industrial (10,2), speed 40, congestion 0.5). -/
theorem tiempo_formula_witness :
    dictGet initState.routes "R4" = some ["Terminal", "Barrio Industrial"] ∧
    dictGet initState.points "Terminal" = some (2, 2) ∧
    dictGet initState.points "Barrio Industrial" = some (10, 2) ∧
    dictGet initState.route_params "R4" =
      some ⟨"purple", 40, 15, 0.5, 100, 2, some (-0.12)⟩ ∧
    route_tiempo initState "R4" =
      some ((Real.sqrt ((((10 : ℚ) : ℝ) - ((2 : ℚ) : ℝ)) ^ 2 +
            (((2 : ℚ) : ℝ) - ((2 : ℚ) : ℝ)) ^ 2) / ((40 : ℚ) : ℝ)) * 60 *
          (1 + ((0.5 : ℚ) : ℝ))) :=
  ⟨rfl, rfl, rfl, rfl,
    tiempo_formula initState "R4" "Terminal" "Barrio Industrial" (2, 2) (10, 2)
      ⟨"purple", 40, 15, 0.5, 100, 2, some (-0.12)⟩ rfl rfl rfl rfl⟩

/-- C1: the score computed by `calculate_route_metrics` is
(adjusted demand * 0.5) / (time * 0.3 + frequency * 0.2), where the adjusted
demand is demanda * (1 + impacto_R1) exactly for route R1 (the route affected
by the impact coefficient of R4) and the unmodified demanda otherwise. -/
theorem score_formula (s : SimState) (r : String) (p : RouteParams) (imp : ℚ)
    (hr : s.routes = routes)
    (hp : dictGet s.route_params r = some p)
    (himp : (dictGet s.route_params "R4").bind (fun q => q.impacto_R1) = some imp) :
    route_score s r =
      (route_tiempo s r).map (fun t =>
        (((if r = "R1" then p.demanda * (1 + imp) else p.demanda : ℚ) : ℝ) * 0.5) /
          (t * 0.3 + (p.frecuencia : ℝ) * 0.2)) := by
  obtain ⟨q, hq, hqi⟩ := Option.bind_eq_some.1 himp
  unfold route_score demanda_ajustada
  rw [hp, hq]
  by_cases hR1 : r = "R1"
  · simp only [hR1, hr, Option.bind_eq_bind, Option.some_bind, hqi, Option.pure_def,
      show (dictGet routes "R4").isSome = true from rfl, eq_self_iff_true, true_and,
      if_true]
    cases ht : route_tiempo s "R1" with
    | none => rfl
    | some t => rfl
  · simp only [hR1, hr, Option.bind_eq_bind, Option.some_bind, Option.pure_def,
      false_and, if_false]
    cases ht : route_tiempo s r with
    | none => rfl
    | some t => simp only [ht, Option.some_bind, Option.map_some', if_neg hR1]

/-- Witness for C1 at the initial state and route R1, whose demand 180 is
adjusted by the impact coefficient -0.12 of R4. -/
theorem score_formula_witness :
    initState.routes = routes ∧
    dictGet initState.route_params "R1" =
      some ⟨"blue", 30, 15, 0.7, 180, 180, none⟩ ∧
    (dictGet initState.route_params "R4").bind (fun q => q.impacto_R1) =
      some (-0.12) ∧
    route_score initState "R1" =
      (route_tiempo initState "R1").map (fun t =>
        (((if ("R1" : String) = "R1" then
            (⟨"blue", 30, 15, 0.7, 180, 180, none⟩ : RouteParams).demanda * (1 + (-0.12))
          else
            (⟨"blue", 30, 15, 0.7, 180, 180, none⟩ : RouteParams).demanda : ℚ) : ℝ) * 0.5) /
          (t * 0.3 +
            ((⟨"blue", 30, 15, 0.7, 180, 180, none⟩ : RouteParams).frecuencia : ℝ) * 0.2)) :=
  ⟨rfl, rfl, rfl,
    score_formula initState "R1" ⟨"blue", 30, 15, 0.7, 180, 180, none⟩ (-0.12)
      rfl rfl rfl⟩

/-- Unfolding of the space-key branch of the key handler. -/
lemma on_key_press_space (s : SimState) :
    on_key_press " " s =
      { s with
          current_route := (s.routes.map (fun e => e.1)).getD
            (((s.routes.map (fun e => e.1)).indexOf s.current_route + 1) %
              (s.routes.map (fun e => e.1)).length) s.current_route
          segment := 0
          progress := 0 } := rfl

/-- C5: with the startup routes table, a space press moves `current_route` to
the next name in insertion order (R1, R2, R3, R4, cyclically) and resets
`bus_pos` to segment 0 and progress 0; four consecutive presses return to the
starting route, and the four routes visited are a permutation of the four
names. -/
theorem space_cycles_routes (s : SimState) (hr : s.routes = routes)
    (hc : s.current_route ∈ (["R1", "R2", "R3", "R4"] : List String)) :
    (on_key_press " " s).current_route = next_route_spec s.current_route ∧
    (on_key_press " " s).segment = 0 ∧
    (on_key_press " " s).progress = 0 ∧
    (on_key_press " " (on_key_press " " (on_key_press " " (on_key_press " " s)))).current_route =
      s.current_route ∧
    List.Perm
      [(on_key_press " " s).current_route,
        (on_key_press " " (on_key_press " " s)).current_route,
        (on_key_press " " (on_key_press " " (on_key_press " " s))).current_route,
        (on_key_press " " (on_key_press " " (on_key_press " " (on_key_press " " s)))).current_route]
      ["R1", "R2", "R3", "R4"] := by
  simp only [List.mem_cons, List.not_mem_nil, or_false] at hc
  rcases hc with hc | hc | hc | hc
  · have e1 : on_key_press " " s =
        { s with current_route := "R2", segment := 0, progress := 0 } := by
      rw [on_key_press_space, hr, hc]; rfl
    have e2 : on_key_press " " { s with current_route := "R2", segment := 0, progress := 0 } =
        { s with current_route := "R3", segment := 0, progress := 0 } := by
      rw [on_key_press_space]; dsimp only; rw [hr]; rfl
    have e3 : on_key_press " " { s with current_route := "R3", segment := 0, progress := 0 } =
        { s with current_route := "R4", segment := 0, progress := 0 } := by
      rw [on_key_press_space]; dsimp only; rw [hr]; rfl
    have e4 : on_key_press " " { s with current_route := "R4", segment := 0, progress := 0 } =
        { s with current_route := "R1", segment := 0, progress := 0 } := by
      rw [on_key_press_space]; dsimp only; rw [hr]; rfl
    rw [e1, e2, e3, e4, hc]
    exact ⟨rfl, rfl, rfl, rfl,
      show List.Perm ["R2", "R3", "R4", "R1"] ["R1", "R2", "R3", "R4"] from by decide⟩
  · have e1 : on_key_press " " s =
        { s with current_route := "R3", segment := 0, progress := 0 } := by
      rw [on_key_press_space, hr, hc]; rfl
    have e2 : on_key_press " " { s with current_route := "R3", segment := 0, progress := 0 } =
        { s with current_route := "R4", segment := 0, progress := 0 } := by
      rw [on_key_press_space]; dsimp only; rw [hr]; rfl
    have e3 : on_key_press " " { s with current_route := "R4", segment := 0, progress := 0 } =
        { s with current_route := "R1", segment := 0, progress := 0 } := by
      rw [on_key_press_space]; dsimp only; rw [hr]; rfl
    have e4 : on_key_press " " { s with current_route := "R1", segment := 0, progress := 0 } =
        { s with current_route := "R2", segment := 0, progress := 0 } := by
      rw [on_key_press_space]; dsimp only; rw [hr]; rfl
    rw [e1, e2, e3, e4, hc]
    exact ⟨rfl, rfl, rfl, rfl,
      show List.Perm ["R3", "R4", "R1", "R2"] ["R1", "R2", "R3", "R4"] from by decide⟩
  · have e1 : on_key_press " " s =
        { s with current_route := "R4", segment := 0, progress := 0 } := by
      rw [on_key_press_space, hr, hc]; rfl
    have e2 : on_key_press " " { s with current_route := "R4", segment := 0, progress := 0 } =
        { s with current_route := "R1", segment := 0, progress := 0 } := by
      rw [on_key_press_space]; dsimp only; rw [hr]; rfl
    have e3 : on_key_press " " { s with current_route := "R1", segment := 0, progress := 0 } =
        { s with current_route := "R2", segment := 0, progress := 0 } := by
      rw [on_key_press_space]; dsimp only; rw [hr]; rfl
    have e4 : on_key_press " " { s with current_route := "R2", segment := 0, progress := 0 } =
        { s with current_route := "R3", segment := 0, progress := 0 } := by
      rw [on_key_press_space]; dsimp only; rw [hr]; rfl
    rw [e1, e2, e3, e4, hc]
    exact ⟨rfl, rfl, rfl, rfl,
      show List.Perm ["R4", "R1", "R2", "R3"] ["R1", "R2", "R3", "R4"] from by decide⟩
  · have e1 : on_key_press " " s =
        { s with current_route := "R1", segment := 0, progress := 0 } := by
      rw [on_key_press_space, hr, hc]; rfl
    have e2 : on_key_press " " { s with current_route := "R1", segment := 0, progress := 0 } =
        { s with current_route := "R2", segment := 0, progress := 0 } := by
      rw [on_key_press_space]; dsimp only; rw [hr]; rfl
    have e3 : on_key_press " " { s with current_route := "R2", segment := 0, progress := 0 } =
        { s with current_route := "R3", segment := 0, progress := 0 } := by
      rw [on_key_press_space]; dsimp only; rw [hr]; rfl
    have e4 : on_key_press " " { s with current_route := "R3", segment := 0, progress := 0 } =
        { s with current_route := "R4", segment := 0, progress := 0 } := by
      rw [on_key_press_space]; dsimp only; rw [hr]; rfl
    rw [e1, e2, e3, e4, hc]
    exact ⟨rfl, rfl, rfl, rfl,
      show List.Perm ["R1", "R2", "R3", "R4"] ["R1", "R2", "R3", "R4"] from by decide⟩

/-- Witness for C5 at the initial state (current route R1). -/
theorem space_cycles_routes_witness :
    initState.routes = routes ∧
    initState.current_route ∈ (["R1", "R2", "R3", "R4"] : List String) ∧
    ((on_key_press " " initState).current_route = next_route_spec initState.current_route ∧
      (on_key_press " " initState).segment = 0 ∧
      (on_key_press " " initState).progress = 0 ∧
      (on_key_press " "
          (on_key_press " " (on_key_press " " (on_key_press " " initState)))).current_route =
        initState.current_route ∧
      List.Perm
        [(on_key_press " " initState).current_route,
          (on_key_press " " (on_key_press " " initState)).current_route,
          (on_key_press " " (on_key_press " " (on_key_press " " initState))).current_route,
          (on_key_press " "
            (on_key_press " " (on_key_press " " (on_key_press " " initState)))).current_route]
        ["R1", "R2", "R3", "R4"]) :=
  ⟨rfl, by decide, space_cycles_routes initState rfl (by decide)⟩

/-- A successful tick keeps segment 0 and progress inside [0, 1), provided the
active route has two points and a positive per-tick speed. -/
lemma tick_from_shape (s s' : SimState)
    (heq : update_bus_position s = some s')
    (hlen : ∀ pts, route_points s = some pts → pts.length = 2)
    (hspeed : ∀ p, dictGet s.route_params s.current_route = some p →
      0 < 0.01 * (p.velocidad_promedio / 30) * (1 - p.congestion * 0.5))
    (hseg : s.segment = 0) (h0 : 0 ≤ s.progress) (_h1 : s.progress < 1) :
    s'.segment = 0 ∧ 0 ≤ s'.progress ∧ s'.progress < 1 := by
  obtain ⟨pts, p, hpts, hp, hs'⟩ := update_some_shape s s' heq
  have hl := hlen pts hpts
  have hsp := hspeed p hp
  rw [hs']
  dsimp only
  split_ifs with hc1 hc2
  · exact ⟨rfl, le_refl 0, by norm_num⟩
  · exfalso
    rw [hseg, hl] at hc2
    omega
  · exact ⟨hseg, by linarith, not_le.1 hc1⟩

/-- Every reachable state satisfies the simulator invariant. -/
lemma reachable_inv {s : SimState} (h : Reachable s) : SimInv s := by
  induction h with
  | init =>
      exact ⟨rfl, rfl, rfl, by decide, rfl, le_refl 0, show (0 : ℚ) < 1 from by norm_num⟩
  | @key k t hs ih =>
      obtain ⟨hpoints, hroutes, hparams, hcur, hseg, h0, h1⟩ := ih
      by_cases hk : k = " "
      · subst hk
        rw [on_key_press_space]
        simp only [List.mem_cons, List.not_mem_nil, or_false] at hcur
        rcases hcur with hc | hc | hc | hc
        · exact ⟨hpoints, hroutes, hparams,
            by rw [hroutes, hc];
               exact show ("R2" : String) ∈ (["R1", "R2", "R3", "R4"] : List String) from
                 by decide,
            rfl, le_refl 0, show (0 : ℚ) < 1 from by norm_num⟩
        · exact ⟨hpoints, hroutes, hparams,
            by rw [hroutes, hc];
               exact show ("R3" : String) ∈ (["R1", "R2", "R3", "R4"] : List String) from
                 by decide,
            rfl, le_refl 0, show (0 : ℚ) < 1 from by norm_num⟩
        · exact ⟨hpoints, hroutes, hparams,
            by rw [hroutes, hc];
               exact show ("R4" : String) ∈ (["R1", "R2", "R3", "R4"] : List String) from
                 by decide,
            rfl, le_refl 0, show (0 : ℚ) < 1 from by norm_num⟩
        · exact ⟨hpoints, hroutes, hparams,
            by rw [hroutes, hc];
               exact show ("R1" : String) ∈ (["R1", "R2", "R3", "R4"] : List String) from
                 by decide,
            rfl, le_refl 0, show (0 : ℚ) < 1 from by norm_num⟩
      · have hid : on_key_press k t = t := by unfold on_key_press; rw [if_neg hk]
        rw [hid]
        exact ⟨hpoints, hroutes, hparams, hcur, hseg, h0, h1⟩
  | @tick t t' hs heq ih =>
      obtain ⟨hpoints, hroutes, hparams, hcur, hseg, h0, h1⟩ := ih
      obtain ⟨pts0, p0, hpts0, hp0, hs'0⟩ := update_some_shape _ _ heq
      simp only [List.mem_cons, List.not_mem_nil, or_false] at hcur
      rcases hcur with hc | hc | hc | hc
      · have hpts : route_points t = some [(2, 2), (8, 5)] := by
          unfold route_points; rw [hroutes, hpoints, hc]; rfl
        have hp : dictGet t.route_params t.current_route = some (⟨"blue", 30, 15, 0.7, 180, 180, none⟩ : RouteParams) := by
          rw [hparams, hc]; rfl
        have hstep := tick_from_shape t t' heq
          (fun pts2 h2 => by
            rw [hpts] at h2; obtain rfl := Option.some.inj h2; rfl)
          (fun p2 hp2 => by
            rw [hp] at hp2; obtain rfl := Option.some.inj hp2; norm_num)
          hseg h0 h1
        exact ⟨by rw [hs'0]; exact hpoints, by rw [hs'0]; exact hroutes,
          by rw [hs'0]; exact hparams,
          by rw [hs'0];
             exact show t.current_route ∈ (["R1", "R2", "R3", "R4"] : List String) from by
               rw [hc]; decide,
          hstep.1, hstep.2.1, hstep.2.2⟩
      · have hpts : route_points t = some [(8, 5), (5, 8)] := by
          unfold route_points; rw [hroutes, hpoints, hc]; rfl
        have hp : dictGet t.route_params t.current_route = some (⟨"green", 25, 20, 0.6, 150, 150, none⟩ : RouteParams) := by
          rw [hparams, hc]; rfl
        have hstep := tick_from_shape t t' heq
          (fun pts2 h2 => by
            rw [hpts] at h2; obtain rfl := Option.some.inj h2; rfl)
          (fun p2 hp2 => by
            rw [hp] at hp2; obtain rfl := Option.some.inj hp2; norm_num)
          hseg h0 h1
        exact ⟨by rw [hs'0]; exact hpoints, by rw [hs'0]; exact hroutes,
          by rw [hs'0]; exact hparams,
          by rw [hs'0];
             exact show t.current_route ∈ (["R1", "R2", "R3", "R4"] : List String) from by
               rw [hc]; decide,
          hstep.1, hstep.2.1, hstep.2.2⟩
      · have hpts : route_points t = some [(2, 2), (5, 8)] := by
          unfold route_points; rw [hroutes, hpoints, hc]; rfl
        have hp : dictGet t.route_params t.current_route = some (⟨"red", 35, 25, 0.4, 120, 120, none⟩ : RouteParams) := by
          rw [hparams, hc]; rfl
        have hstep := tick_from_shape t t' heq
          (fun pts2 h2 => by
            rw [hpts] at h2; obtain rfl := Option.some.inj h2; rfl)
          (fun p2 hp2 => by
            rw [hp] at hp2; obtain rfl := Option.some.inj hp2; norm_num)
          hseg h0 h1
        exact ⟨by rw [hs'0]; exact hpoints, by rw [hs'0]; exact hroutes,
          by rw [hs'0]; exact hparams,
          by rw [hs'0];
             exact show t.current_route ∈ (["R1", "R2", "R3", "R4"] : List String) from by
               rw [hc]; decide,
          hstep.1, hstep.2.1, hstep.2.2⟩
      · have hpts : route_points t = some [(2, 2), (10, 2)] := by
          unfold route_points; rw [hroutes, hpoints, hc]; rfl
        have hp : dictGet t.route_params t.current_route =
            some (⟨"purple", 40, 15, 0.5, 100, 2, some (-0.12)⟩ : RouteParams) := by
          rw [hparams, hc]; rfl
        have hstep := tick_from_shape t t' heq
          (fun pts2 h2 => by
            rw [hpts] at h2; obtain rfl := Option.some.inj h2; rfl)
          (fun p2 hp2 => by
            rw [hp] at hp2; obtain rfl := Option.some.inj hp2; norm_num)
          hseg h0 h1
        exact ⟨by rw [hs'0]; exact hpoints, by rw [hs'0]; exact hroutes,
          by rw [hs'0]; exact hparams,
          by rw [hs'0];
             exact show t.current_route ∈ (["R1", "R2", "R3", "R4"] : List String) from by
               rw [hc]; decide,
          hstep.1, hstep.2.1, hstep.2.2⟩

/-- C4: in every state reachable from the initial state by animation ticks and
key presses, the progress fraction lies in [0, 1) and the segment index is a
valid segment index of the active route: segment + 1 < number of route points,
and with the two-stop routes the segment is 0. -/
theorem bus_pos_invariant {s : SimState} (h : Reachable s) :
    0 ≤ s.progress ∧ s.progress < 1 ∧
    ∃ pts, route_points s = some pts ∧ s.segment + 1 < pts.length ∧
      s.segment = 0 := by
  obtain ⟨hpoints, hroutes, hparams, hcur, hseg, h0, h1⟩ := reachable_inv h
  refine ⟨h0, h1, ?_⟩
  simp only [List.mem_cons, List.not_mem_nil, or_false] at hcur
  rcases hcur with hc | hc | hc | hc
  · exact ⟨[(2, 2), (8, 5)],
      by unfold route_points; rw [hroutes, hpoints, hc]; rfl,
      by rw [hseg]; decide, hseg⟩
  · exact ⟨[(8, 5), (5, 8)],
      by unfold route_points; rw [hroutes, hpoints, hc]; rfl,
      by rw [hseg]; decide, hseg⟩
  · exact ⟨[(2, 2), (5, 8)],
      by unfold route_points; rw [hroutes, hpoints, hc]; rfl,
      by rw [hseg]; decide, hseg⟩
  · exact ⟨[(2, 2), (10, 2)],
      by unfold route_points; rw [hroutes, hpoints, hc]; rfl,
      by rw [hseg]; decide, hseg⟩

/-- Witness for C4 at the initial state itself. -/
theorem bus_pos_invariant_witness :
    Reachable initState ∧
    (0 ≤ initState.progress ∧ initState.progress < 1 ∧
      ∃ pts, route_points initState = some pts ∧
        initState.segment + 1 < pts.length ∧ initState.segment = 0) :=
  ⟨Reachable.init, bus_pos_invariant Reachable.init⟩

/-- C9: a key-press event whose key is not the space character leaves the whole
simulator state unchanged. -/
theorem non_space_key_noop (k : String) (s : SimState) (h : k ≠ " ") :
    on_key_press k s = s := by
  simp [on_key_press, h]

/-- Witness for C9 at the concrete key "a" and the initial state. -/
theorem non_space_key_noop_witness :
    "a" ≠ " " ∧ on_key_press "a" initState = initState :=
  ⟨by decide, non_space_key_noop "a" initState (by decide)⟩

/-- C10: when the segment index satisfies the invariant
segment + 1 < number of route points, both list accesses of the interpolation
step are in bounds and the guarded fallback to index 0 on line 303 is not
taken: the selected end point is the one at segment + 1. -/
theorem interpolation_indices_in_bounds (s : SimState) (pts : List Coord)
    (_hpts : route_points s = some pts) (hseg : s.segment + 1 < pts.length) :
    (pts.get? s.segment).isSome ∧ (pts.get? (s.segment + 1)).isSome ∧
    segment_end pts s.segment = pts.get? (s.segment + 1) := by
  refine ⟨get?_isSome_of_lt pts s.segment (by omega),
    get?_isSome_of_lt pts (s.segment + 1) hseg, ?_⟩
  simp [segment_end, hseg]

/-- Witness for C10 at the initial state, whose active route R1 has the two
points Terminal and Hospital. -/
theorem interpolation_indices_in_bounds_witness :
    route_points initState = some [(2, 2), (8, 5)] ∧
    initState.segment + 1 < ([(2, 2), (8, 5)] : List Coord).length ∧
    ((([(2, 2), (8, 5)] : List Coord).get? initState.segment).isSome ∧
      (([(2, 2), (8, 5)] : List Coord).get? (initState.segment + 1)).isSome ∧
      segment_end [(2, 2), (8, 5)] initState.segment =
        ([(2, 2), (8, 5)] : List Coord).get? (initState.segment + 1)) :=
  ⟨by decide, by decide,
    interpolation_indices_in_bounds initState [(2, 2), (8, 5)] (by decide) (by decide)⟩

end Ruta4A
